import Mathlib

/-!
Verification development for the kavach-infinity real-time anomaly, risk and
safety-response subsystem.  The Python services are shallowly embedded:

* `backend/app/services/safety/safety_monitor.py`   → `SafetyState` and its operations
* `backend/app/services/realtime/websocket_manager.py` → `WSState` and its operations
* `backend/app/services/ai/anomaly_detector.py`     → `checkThresholds`,
  `checkRateOfChange`, `detect`, `updHist`, and the retraining schedule
* `backend/app/services/ai/predictor.py`            → `calculate_failure_probability`,
  `predict_sensor_failure`
* `backend/app/services/ai/risk_scorer.py`          → `riskWeightedSum`, `overallRisk`,
  `riskLevel`

Numbers are embedded as exact rationals (the Python code uses binary floats; the
properties at issue are about the formulas, and every concrete input used below
is exactly representable).  Python dicts are embedded as functions into `Option`.
Wall-clock timestamps, random UUIDs and random confirmation-code strings are
passed in as explicit parameters.  Logging, the database session parameter and
metadata bookkeeping that no claim depends on are not modelled.
-/

/-- Round-half-to-even on rationals, the semantics of the Python built-in
`round` on exact values: ties go to the even integer. -/
def rhe (x : ℚ) : ℤ :=
  if Int.fract x = 1/2 then
    (if ⌊x⌋ % 2 = 0 then ⌊x⌋ else ⌊x⌋ + 1)
  else round x

/-- The Python expression `round(x, 4)` on exact values. -/
def round4 (x : ℚ) : ℚ := (rhe (x * 10000) : ℚ) / 10000

/-! ## Safety monitor (`safety_monitor.py`) -/

/-- One emergency-stop record (`stop_info` dict built in
`SafetyMonitor.trigger_emergency_stop`).  `released_at`/`released_by` model the
keys added on release; timestamps are abstract `Nat` clock values. -/
structure StopInfo where
  stopId : Nat
  site_id : String
  reason : String
  triggered_at : Nat
  triggered_by : String
  auto_triggered : Bool
  status : String
  released_at : Option Nat
  released_by : Option String
deriving DecidableEq, Repr

/-- Entry of `SafetyMonitor.confirmation_codes` (built in
`generate_confirmation_code`). -/
structure CodeInfo where
  action : String
  site_id : String
  user_id : String
  generated_at : Nat
  expires_at : Nat
deriving DecidableEq, Repr

/-- The mutable state of `SafetyMonitor`: `active_stops` (site id → stop info)
and `confirmation_codes` (code → action info), both Python dicts embedded as
functions into `Option`.  `safety_overrides` is not touched by any claim. -/
structure SafetyState where
  active_stops : String → Option StopInfo
  confirmation_codes : String → Option CodeInfo

/-- `SafetyMonitor.trigger_emergency_stop` (safety_monitor.py lines 77-114):
builds a fresh stop record and assigns `self.active_stops[site_id] = stop_info`
unconditionally, returning the record.  The broadcast side effect is external. -/
def trigger_emergency_stop (s : SafetyState) (site_id reason : String)
    (auto_triggered : Bool) (user_id : Option String) (stopId now : Nat) :
    StopInfo × SafetyState :=
  let info : StopInfo :=
    { stopId := stopId
      site_id := site_id
      reason := reason
      triggered_at := now
      triggered_by := user_id.getD "SYSTEM"
      auto_triggered := auto_triggered
      status := "active"
      released_at := none
      released_by := none }
  (info,
   { s with active_stops := fun k => if k = site_id then some info else s.active_stops k })

/-- Result of `SafetyMonitor.release_emergency_stop`: either an error dict
or the released stop record. -/
inductive ReleaseResult where
  | error (msg : String)
  | released (info : StopInfo)
deriving DecidableEq, Repr

/-- Whether `r` is an error outcome. -/
def ReleaseResult.isError : ReleaseResult → Bool
  | .error _ => true
  | .released _ => false

/-- `SafetyMonitor.release_emergency_stop` (safety_monitor.py lines 116-156):
checks the active stop, then code presence, then code binding; on success pops
the stop, marks it released, deletes the code. -/
def release_emergency_stop (s : SafetyState) (site_id confirmation_code user_id : String)
    (now : Nat) : ReleaseResult × SafetyState :=
  match s.active_stops site_id with
  | none => (.error "No active emergency stop for this site", s)
  | some stop =>
    match s.confirmation_codes confirmation_code with
    | none => (.error "Invalid confirmation code", s)
    | some code_info =>
      if code_info.action ≠ "release_stop" ∨ code_info.site_id ≠ site_id then
        (.error "Confirmation code not valid for this action", s)
      else
        let stop' := { stop with
          released_at := some now
          released_by := some user_id
          status := "released" }
        (.released stop',
         { active_stops := fun k => if k = site_id then none else s.active_stops k
           confirmation_codes := fun c => if c = confirmation_code then none
                                          else s.confirmation_codes c })

/-- `SafetyMonitor.generate_confirmation_code` (safety_monitor.py lines
158-178); the random 6-character code is passed in as a parameter.  The source
sets `expires_at` to the generation time (its own comment notes the missing
expiry offset). -/
def generate_confirmation_code (s : SafetyState) (code action site_id user_id : String)
    (now : Nat) : String × SafetyState :=
  (code,
   { s with confirmation_codes := fun c =>
       if c = code then
         some { action := action, site_id := site_id, user_id := user_id
                generated_at := now, expires_at := now }
       else s.confirmation_codes c })

/-- A concrete stop record used in concrete safety scenarios. -/
def stopA : StopInfo :=
  { stopId := 0, site_id := "site1", reason := "fire detected", triggered_at := 0
    triggered_by := "SYSTEM", auto_triggered := true, status := "active"
    released_at := none, released_by := none }

/-- Concrete safety state: one active stop for `"site1"`, no codes. -/
def safetyS0 : SafetyState :=
  { active_stops := fun k => if k = "site1" then some stopA else none
    confirmation_codes := fun _ => none }

/-- Concrete safety state: active stop for `"site1"` and a confirmation code
`"ABC123"` bound to `("release_stop", "site1")`. -/
def safetyS1 : SafetyState :=
  { active_stops := fun k => if k = "site1" then some stopA else none
    confirmation_codes := fun c =>
      if c = "ABC123" then
        some { action := "release_stop", site_id := "site1", user_id := "u1"
               generated_at := 0, expires_at := 0 }
      else none }

/-! ## WebSocket connection manager (`websocket_manager.py`) -/

/-- The parts of `ConnectionManager` state the claims depend on:
`connections` (registration of a connection id, the dict keys) and `rooms`
(room name → member connection ids; a missing room is `none`).  Member sets are
kept as duplicate-free lists.  `user_connections`, `metadata` and the message
counters do not feed back into registration, membership or delivery counts and
are not modelled.  The behaviour of `websocket.send_json` is abstracted by a
`sendOk : String → Bool` oracle passed to the send operations (a `false`
connection raises on send). -/
structure WSState where
  connections : String → Bool
  rooms : String → Option (List String)

/-- `ConnectionManager.disconnect` (websocket_manager.py lines 82-110): no-op
for unknown ids; otherwise removes the connection from `connections` and from
every room, deleting rooms that become empty. -/
def ws_disconnect (s : WSState) (cid : String) : WSState :=
  if s.connections cid then
    { connections := fun c => if c = cid then false else s.connections c
      rooms := fun r =>
        match s.rooms r with
        | some ms =>
          let ms' := ms.erase cid
          if ms'.isEmpty then none else some ms'
        | none => none }
  else s

/-- `ConnectionManager.send_personal` (websocket_manager.py lines 136-160):
`false` for unknown ids; a successful send returns `true`; a raising send is
caught, the connection is disconnected, and `false` is returned. -/
def send_personal (s : WSState) (sendOk : String → Bool) (cid : String) :
    Bool × WSState :=
  if s.connections cid then
    if sendOk cid then (true, s) else (false, ws_disconnect s cid)
  else (false, s)

/-- `ConnectionManager.broadcast_to_room` (websocket_manager.py lines 178-197):
`0` for an unknown room; otherwise iterates over a snapshot
(`list(self.rooms[room_name])`) of the membership taken before the first send,
skipping excluded ids and counting successful `send_personal` calls. -/
def broadcast_to_room (s : WSState) (sendOk : String → Bool) (room_name : String)
    (exclude : List String) : Nat × WSState :=
  match s.rooms room_name with
  | none => (0, s)
  | some members =>
    members.foldl
      (fun acc cid =>
        if cid ∈ exclude then acc
        else
          let r := send_personal acc.2 sendOk cid
          (if r.1 then acc.1 + 1 else acc.1, r.2))
      (0, s)

/-- Connection-manager state with exactly the three connections `a`, `b`, `c`,
all members of the single room `room`. -/
def triRoomState (a b c room : String) : WSState :=
  { connections := fun x => x == a || x == b || x == c
    rooms := fun r => if r = room then some [a, b, c] else none }

/-! ## Sensor history (`anomaly_detector.py`, `_update_history`) -/

/-- `self.history_window` of `AnomalyDetector` (anomaly_detector.py line 37). -/
def history_window : Nat := 100

/-- The per-sensor list update of `AnomalyDetector._update_history`
(anomaly_detector.py lines 318-334): append the new entry, then if the length
exceeds `history_window` keep only the last `history_window` entries
(`self.history[sensor_uid][-self.history_window:]`). -/
def updHist {V : Type} (h : List V) (v : V) : List V :=
  let h2 := h ++ [v]
  if history_window < h2.length then h2.drop (h2.length - history_window) else h2

/-- The whole `self.history` dict (sensor uid → list of entries; a sensor
absent from the dict starts from `[]`), updated by `_update_history`. -/
def updateHistoryMap {V : Type} (m : String → List V) (sensor_uid : String) (v : V) :
    String → List V :=
  fun k => if k = sensor_uid then updHist (m k) v else m k

/-- History map after ingesting the readings `vs` (in order) for `sensor_uid`,
starting from the empty history dict. -/
def ingestAll {V : Type} (sensor_uid : String) (vs : List V) : String → List V :=
  vs.foldl (fun m v => updateHistoryMap m sensor_uid v) (fun _ => [])

/-! ## Isolation-forest retraining schedule (`anomaly_detector.py`, `_ml_detection`)

`_ml_detection` is called by `detect` before `_update_history`, so on the k-th
detect call for a sensor it sees `min (k−1) 100` history entries (the history
is trimmed to 100).  It returns without retraining when that length is `< 20`;
otherwise it retrains exactly when `sensor_uid not in self.models or
len(history) % 20 == 0` (anomaly_detector.py line 265).  The isolation-forest
fit itself is external ML and is not modelled; only the retraining schedule is. -/

/-- History length seen by the k-th detect call (1-indexed), after trimming. -/
def mlHistLen (k : Nat) : Nat := min (k - 1) history_window

/-- The retrain decision of `_ml_detection` given whether a model already
exists for the sensor and the current history length. -/
def mlRetrainCond (modelExists : Bool) (hlen : Nat) : Bool :=
  (20 ≤ hlen) && (!modelExists || hlen % 20 == 0)

/-- Whether a model exists for the sensor after k detect calls (the model is
created the first time `mlRetrainCond` holds). -/
def mlModelAfter : Nat → Bool
  | 0 => false
  | k + 1 => mlModelAfter k || mlRetrainCond (mlModelAfter k) (mlHistLen (k + 1))

/-- Whether the k-th detect call (1-indexed) retrains the model of the sensor. -/
def mlRetrainAt (k : Nat) : Bool :=
  mlRetrainCond (mlModelAfter (k - 1)) (mlHistLen k)

/-! ## Failure predictor (`predictor.py`) -/

/-- The feature dict built by `FailurePredictor._extract_sensor_features`
(predictor.py lines 198-227); `age_days` is extracted but never read by the
probability rules and is omitted. -/
structure SensorFeatures where
  status : String
  uptime : ℚ
  data_quality : ℚ
  last_heartbeat_hours : ℚ
  alerts_last_week : ℚ
deriving DecidableEq, Repr

/-- One entry of the `factors` list built by
`FailurePredictor._calculate_failure_probability`; the formatted `value`
display string is presentation-only and is not modelled. -/
structure PFactor where
  factor : String
  impact : String
  contribution : ℚ
deriving DecidableEq, Repr

/-- `FailurePredictor._calculate_failure_probability` (predictor.py lines
229-307): fixed contribution rules, probability clamped to at most 1, factors
appended in source order (status, uptime, data quality, heartbeat, alerts). -/
def calculate_failure_probability (f : SensorFeatures) : ℚ × List PFactor :=
  let statusF : List PFactor :=
    if f.status = "offline" then
      [{ factor := "sensor_offline", impact := "critical", contribution := 0.8 }]
    else if f.status = "fault" then
      [{ factor := "sensor_fault", impact := "critical", contribution := 0.9 }]
    else if f.status = "degraded" then
      [{ factor := "sensor_degraded", impact := "medium", contribution := 0.4 }]
    else []
  let uptimeF : List PFactor :=
    if f.uptime < 90 then
      [{ factor := "low_uptime", impact := "medium"
         contribution := (90 - f.uptime) / 100 * 0.3 }]
    else []
  let dqF : List PFactor :=
    if f.data_quality < 0.8 then
      [{ factor := "poor_data_quality", impact := "low"
         contribution := (0.8 - f.data_quality) * 0.2 }]
    else []
  let hbF : List PFactor :=
    if 1 < f.last_heartbeat_hours then
      [{ factor := "stale_heartbeat"
         impact := if 6 < f.last_heartbeat_hours then "high" else "medium"
         contribution := min 0.5 (f.last_heartbeat_hours / 24 * 0.5) }]
    else []
  let alertF : List PFactor :=
    if 5 < f.alerts_last_week then
      [{ factor := "high_alert_frequency", impact := "medium"
         contribution := min 0.3 (f.alerts_last_week / 20 * 0.3) }]
    else []
  let factors := statusF ++ uptimeF ++ dqF ++ hbF ++ alertF
  (min 1 ((factors.map PFactor.contribution).sum), factors)

/-- The per-sensor result of `FailurePredictor._predict_sensor_failure`
(predictor.py lines 62-109) as (probability, confidence, factors): horizon
adjustment `min(1, p·(0.5+0.5·min(1, horizon/168)))`, confidence
`round(0.7 + 0.2·len(factors)/5, 4)`.  `predicted_time` (wall clock) and the
explanation string are presentation-only and are not modelled. -/
def predict_sensor_failure (f : SensorFeatures) (horizon_hours : ℚ) :
    ℚ × ℚ × List PFactor :=
  let pf := calculate_failure_probability f
  let horizon_factor := min 1 (horizon_hours / 168)
  let adjusted := min 1 (pf.1 * (0.5 + 0.5 * horizon_factor))
  (round4 adjusted, round4 (0.7 + 0.2 * (pf.2.length : ℚ) / 5), pf.2)

/-- A healthy sensor: online, high uptime and data quality, fresh heartbeat,
no recent alerts — no contribution rule fires. -/
def healthySensor : SensorFeatures :=
  { status := "online", uptime := 99, data_quality := 0.9
    last_heartbeat_hours := 0, alerts_last_week := 0 }

/-! ## Risk scorer (`risk_scorer.py`) -/

/-- `RiskScorer.__init__` weights (risk_scorer.py lines 35-42). -/
def w_sensor_health : ℚ := 0.20
/-- Weight of the active-alerts factor. -/
def w_active_alerts : ℚ := 0.30
/-- Weight of the historical-incidents factor. -/
def w_historical_incidents : ℚ := 0.20
/-- Weight of the anomaly-trend factor. -/
def w_anomaly_trend : ℚ := 0.15
/-- Weight of the environmental factor. -/
def w_environmental : ℚ := 0.10
/-- Weight of the time-pattern factor. -/
def w_time_pattern : ℚ := 0.05

/-- The weighted sum `sum(f["score"] * f["weight"] for f in risk_factors)` of
`RiskScorer.calculate` (risk_scorer.py lines 124-126), over the six factor
scores in their source order. -/
def riskWeightedSum (sh al hi an env tp : ℚ) : ℚ :=
  sh * w_sensor_health + al * w_active_alerts + hi * w_historical_incidents +
    an * w_anomaly_trend + env * w_environmental + tp * w_time_pattern

/-- `overall_risk = round(min(1.0, max(0.0, overall_risk)), 4)`
(risk_scorer.py line 127). -/
def overallRisk (sh al hi an env tp : ℚ) : ℚ :=
  round4 (min 1 (max 0 (riskWeightedSum sh al hi an env tp)))

/-- The risk-level ladder of `RiskScorer.calculate` (risk_scorer.py lines
130-139). -/
def riskLevel (r : ℚ) : String :=
  if 0.8 ≤ r then "critical"
  else if 0.6 ≤ r then "high"
  else if 0.4 ≤ r then "medium"
  else if 0.2 ≤ r then "low"
  else "minimal"

/-! ## Anomaly detector (`anomaly_detector.py`) -/

/-- A contributing-feature record appended by one of the three detection
methods (the per-violation dicts of `_check_thresholds`,
`_check_rate_of_change` and `_ml_detection`). -/
inductive Feature where
  | thresholdViolation (feature : String) (value : ℚ) (violation : String)
      (threshold : ℚ) (severity : ℚ)
  | rapidChange (feature : String) (value previous_value change threshold severity : ℚ)
  | mlDeviation (feature : String) (deviation_sigma : ℚ) (value : Option ℚ) (mean : ℚ)
deriving DecidableEq, Repr

/-- The result dict each detection method returns to `detect`. -/
structure DetResult where
  is_anomaly : Bool
  score : ℚ
  features : List Feature
deriving DecidableEq, Repr

/-- The `values` dict of a reading, iterated in insertion order. -/
abbrev Values := List (String × ℚ)

/-- Dict lookup on a reading (`last_reading[key]`). -/
def vlookup (vs : Values) (k : String) : Option ℚ :=
  (vs.find? (fun p => p.1 == k)).map Prod.snd

/-- A thresholds dict: key (min, max, rate, or the per-channel forms such
as key_min) to numeric bound. -/
abbrev ThDict := String → Option ℚ

/-- `AnomalyDetector._check_thresholds` (anomaly_detector.py lines 155-194):
per channel, the min bound is the min entry of the dict, falling back to the
per-channel key_min entry (and symmetrically for max); a bound violation appends a record with severity
`(distance)/abs(bound)` (or `1.0` for a zero bound) capped at 1, and raises
`max_score` to `min(1, 0.5 + severity·0.5)` with the uncapped severity. -/
def checkThresholds (values : Values) (thresholds : ThDict) : DetResult :=
  let step := fun (acc : List Feature × ℚ) (kv : String × ℚ) =>
    let key := kv.1
    let value := kv.2
    let min_val := (thresholds "min").orElse (fun _ => thresholds (key ++ "_min"))
    let max_val := (thresholds "max").orElse (fun _ => thresholds (key ++ "_max"))
    let acc1 :=
      match min_val with
      | some m =>
        if value < m then
          let severity := if m ≠ 0 then (m - value) / |m| else 1
          (acc.1 ++ [Feature.thresholdViolation key value "below_minimum" m
                       (min 1 severity)],
           max acc.2 (min 1 (0.5 + severity * 0.5)))
        else acc
      | none => acc
    match max_val with
    | some m =>
      if m < value then
        let severity := if m ≠ 0 then (value - m) / |m| else 1
        (acc1.1 ++ [Feature.thresholdViolation key value "above_maximum" m
                      (min 1 severity)],
         max acc1.2 (min 1 (0.5 + severity * 0.5)))
      else acc1
    | none => acc1
  let r := values.foldl step ([], 0)
  { is_anomaly := !r.1.isEmpty, score := r.2, features := r.1 }

/-- `AnomalyDetector._check_rate_of_change` (anomaly_detector.py lines
196-236): skipped below 2 history entries; compares each channel against the
previous reading (`history[-1]`); a missing rate threshold defaults to
infinity, i.e. never fires (`none` here). -/
def checkRateOfChange (sensor_history : List Values) (values : Values)
    (thresholds : ThDict) : DetResult :=
  if sensor_history.length < 2 then { is_anomaly := false, score := 0, features := [] }
  else
    match sensor_history.getLast? with
    | none => { is_anomaly := false, score := 0, features := [] }
    | some last_reading =>
      let step := fun (acc : List Feature × ℚ) (kv : String × ℚ) =>
        let key := kv.1
        let value := kv.2
        match vlookup last_reading key with
        | none => acc
        | some prev =>
          let change := |value - prev|
          match (thresholds "rate").orElse (fun _ => thresholds (key ++ "_rate")) with
          | none => acc
          | some rate_threshold =>
            if rate_threshold < change then
              let severity := if 0 < rate_threshold
                              then (change - rate_threshold) / rate_threshold else 1
              (acc.1 ++ [Feature.rapidChange key value prev change rate_threshold
                           (min 1 severity)],
               max acc.2 (min 1 (0.6 + severity * 0.4)))
            else acc
      let r := values.foldl step ([], 0)
      { is_anomaly := !r.1.isEmpty, score := r.2, features := r.1 }

/-- A min/max/rate thresholds dict. -/
def mkTh (mn mx rt : ℚ) : ThDict := fun k =>
  if k = "min" then some mn else if k = "max" then some mx
  else if k = "rate" then some rt else none

/-- `AnomalyDetector.default_thresholds` (anomaly_detector.py lines 40-52);
an unknown sensor type yields the empty dict. -/
def defaultThresholds (sensor_type : String) : ThDict :=
  if sensor_type = "temperature" then mkTh (-40) 85 5
  else if sensor_type = "humidity" then mkTh 0 100 10
  else if sensor_type = "pressure" then mkTh 800 1200 50
  else if sensor_type = "vibration" then mkTh 0 50 10
  else if sensor_type = "power" then mkTh 0 500 100
  else if sensor_type = "radar" then mkTh 0 1000 200
  else if sensor_type = "thermal" then mkTh (-20) 200 20
  else if sensor_type = "gas" then mkTh 0 1000 50
  else if sensor_type = "motion" then mkTh 0 1 1
  else if sensor_type = "proximity" then mkTh 0 1000 500
  else if sensor_type = "network" then mkTh 0 100 50
  else fun _ => none

/-- The result dict of `AnomalyDetector.detect`; `inference_time_ms` (wall
clock) is not modelled. -/
structure AnomalyOutput where
  is_anomaly : Bool
  score : ℚ
  confidence : ℚ
  anomaly_type : Option String
  detection_methods : List String
  contributing_features : List Feature
  explanation : String
  recommended_action : Option String
deriving DecidableEq, Repr

/-- `AnomalyDetector.detect` (anomaly_detector.py lines 59-153).  The
isolation-forest step (`_ml_detection`) wraps external sklearn models, so its
result is an oracle parameter `ml_result`; likewise `fired_explanation` stands
for the string `_generate_explanation` renders in the fired case (decimal
float formatting is not modelled; the literal of the non-fired branch is).  The
second component is the history after `_update_history`. -/
def detect (values : Values) (sensor_type : String) (thresholds : Option ThDict)
    (sensor_history : List Values) (ml_result : DetResult)
    (fired_explanation : String) : AnomalyOutput × List Values :=
  let active_thresholds := thresholds.getD (defaultThresholds sensor_type)
  let tr := checkThresholds values active_thresholds
  let rr := checkRateOfChange sensor_history values active_thresholds
  let anomalies : List String :=
    (if tr.is_anomaly then ["threshold"] else []) ++
    (if rr.is_anomaly then ["rate_of_change"] else []) ++
    (if ml_result.is_anomaly then ["ml_isolation_forest"] else [])
  let scores : List ℚ :=
    (if tr.is_anomaly then [tr.score] else []) ++
    (if rr.is_anomaly then [rr.score] else []) ++
    (if ml_result.is_anomaly then [ml_result.score] else [])
  let contributing_features : List Feature :=
    (if tr.is_anomaly then tr.features else []) ++
    (if rr.is_anomaly then rr.features else []) ++
    (if ml_result.is_anomaly then ml_result.features else [])
  let history' := updHist sensor_history values
  let is_anomaly := !anomalies.isEmpty
  let overall_score : ℚ :=
    if is_anomaly then
      (if scores.isEmpty then 0 else scores.sum / (scores.length : ℚ))
    else 0
  let confidence : ℚ :=
    if is_anomaly then min 0.95 (0.5 + 0.15 * (anomalies.length : ℚ)) else 0.95
  let anomaly_type : Option String :=
    if is_anomaly then
      (if "threshold" ∈ anomalies then some "threshold_violation"
       else if "rate_of_change" ∈ anomalies then some "sudden_change"
       else some "pattern_anomaly")
    else none
  let explanation :=
    if is_anomaly then fired_explanation else "All readings within normal parameters."
  let recommended_action : Option String :=
    if is_anomaly then
      (if 0.8 < overall_score then
        some "IMMEDIATE: Investigate sensor readings. Possible equipment failure."
       else if 0.6 < overall_score then
        some "HIGH: Review sensor data and check for environmental factors."
       else some "MONITOR: Track readings for developing patterns.")
    else none
  ({ is_anomaly := is_anomaly
     score := round4 overall_score
     confidence := round4 confidence
     anomaly_type := anomaly_type
     detection_methods := anomalies
     contributing_features := contributing_features.take 5
     explanation := explanation
     recommended_action := recommended_action }, history')

/-! ## Helper lemmas -/

/-- Rounding a rational that is an integer multiple of 1/10000 at four decimal
places is the identity. -/
theorem rhe_intCast (n : ℤ) : rhe (n : ℚ) = n := by
  unfold rhe
  rw [Int.fract_intCast]
  norm_num

/-- `round4` fixes every rational whose product with 10000 is an integer. -/
theorem round4_of_mul_eq_int (x : ℚ) (n : ℤ) (h : x * 10000 = (n : ℚ)) :
    round4 x = x := by
  unfold round4
  rw [h, rhe_intCast]
  field_simp at h ⊢
  linarith

/-- Round-half-to-even moves a value by at most one half. -/
theorem abs_rhe_sub_le (x : ℚ) : |(rhe x : ℚ) - x| ≤ 1/2 := by
  unfold rhe
  have hfr : x - (⌊x⌋ : ℚ) = Int.fract x := Int.self_sub_floor x
  split_ifs with h1 h2
  · rw [h1] at hfr
    rw [abs_sub_le_iff]
    constructor <;> linarith
  · rw [h1] at hfr
    rw [abs_sub_le_iff]
    constructor <;> push_cast <;> linarith
  · rw [abs_sub_comm]
    exact abs_sub_round x

/-- `round4` maps the unit interval into itself. -/
theorem round4_unit {x : ℚ} (h0 : 0 ≤ x) (h1 : x ≤ 1) :
    0 ≤ round4 x ∧ round4 x ≤ 1 := by
  have hb := abs_rhe_sub_le (x * 10000)
  rw [abs_sub_le_iff] at hb
  have hlo : (0 : ℤ) ≤ rhe (x * 10000) := by
    have h2 : (-1 : ℚ) < (rhe (x * 10000) : ℚ) := by linarith [hb.2]
    have h3 : (-1 : ℤ) < rhe (x * 10000) := by exact_mod_cast h2
    omega
  have hhi : rhe (x * 10000) ≤ (10000 : ℤ) := by
    have h2 : (rhe (x * 10000) : ℚ) < 10001 := by linarith [hb.1]
    have h3 : rhe (x * 10000) < (10001 : ℤ) := by exact_mod_cast h2
    omega
  have hlo2 : (0 : ℚ) ≤ (rhe (x * 10000) : ℚ) := by exact_mod_cast hlo
  have hhi2 : ((rhe (x * 10000) : ℚ)) ≤ 10000 := by exact_mod_cast hhi
  unfold round4
  refine ⟨by positivity, ?_⟩
  rw [div_le_one (by norm_num)]
  exact hhi2

/-- A release with a code that is absent from the code table is rejected, no
matter the stop state. -/
theorem release_err_of_code_none
    (s : SafetyState) (site code uid : String) (now : Nat)
    (h : s.confirmation_codes code = none) :
    (release_emergency_stop s site code uid now).1.isError = true := by
  cases hs : s.active_stops site with
  | none => simp [release_emergency_stop, hs, ReleaseResult.isError]
  | some stop => simp [release_emergency_stop, hs, h, ReleaseResult.isError]

/-- A successful release deletes the presented confirmation code from the
code table. -/
theorem release_success_code_removed
    (s : SafetyState) (site code uid : String) (now : Nat)
    (h : (release_emergency_stop s site code uid now).1.isError = false) :
    (release_emergency_stop s site code uid now).2.confirmation_codes code = none := by
  cases hs : s.active_stops site with
  | none =>
    simp only [release_emergency_stop, hs, ReleaseResult.isError] at h
    exact Bool.noConfusion h
  | some stop =>
    cases hc : s.confirmation_codes code with
    | none =>
      simp only [release_emergency_stop, hs, hc, ReleaseResult.isError] at h
      exact Bool.noConfusion h
    | some ci =>
      by_cases hbad : ci.action ≠ "release_stop" ∨ ci.site_id ≠ site
      · simp only [release_emergency_stop, hs, hc] at h
        rw [if_pos hbad] at h
        exact Bool.noConfusion h
      · simp only [release_emergency_stop, hs, hc]
        rw [if_neg hbad]
        simp

/-- Folding the history update over a reading list keeps exactly the last
`history_window` readings. -/
theorem foldl_updHist_eq_drop {V : Type} (vs : List V) :
    vs.foldl updHist [] = vs.drop (vs.length - history_window) := by
  induction vs using List.reverseRecOn with
  | nil => rfl
  | append_singleton l v ih =>
    rw [List.foldl_append, List.foldl_cons, List.foldl_nil, ih]
    simp only [updHist, history_window]
    by_cases h : l.length < 100
    · have h0 : l.length - 100 = 0 := by omega
      have h1 : (l ++ [v]).length - 100 = 0 := by
        simp only [List.length_append, List.length_singleton]
        omega
      rw [h0, List.drop_zero, h1, List.drop_zero]
      rw [if_neg (by simp only [List.length_append, List.length_singleton]; omega)]
    · push_neg at h
      have hlen : (l.drop (l.length - 100)).length = 100 := by
        rw [List.length_drop]
        omega
      rw [if_pos (by rw [List.length_append, hlen]; simp only [List.length_singleton]; omega)]
      have e1 : (l.drop (l.length - 100) ++ [v]).length - 100 = 1 := by
        rw [List.length_append, hlen]
        simp only [List.length_singleton]
      have e2 : (l ++ [v]).length - 100 = l.length + 1 - 100 := by
        simp only [List.length_append, List.length_singleton]
      rw [e1, e2]
      rw [List.drop_append_of_le_length (by rw [hlen]; omega)]
      rw [List.drop_drop]
      rw [List.drop_append_of_le_length (by omega)]
      have e3 : l.length - 100 + 1 = l.length + 1 - 100 := by omega
      rw [e3]

/-- Ingesting readings for one sensor updates only that key of the history
dict, by the single-list fold. -/
theorem ingest_map_apply {V : Type} (vs : List V) (m : String → List V) (uid k : String) :
    (vs.foldl (fun m v => updateHistoryMap m uid v) m) k
      = if k = uid then vs.foldl updHist (m uid) else m k := by
  induction vs generalizing m with
  | nil =>
    simp only [List.foldl_nil]
    by_cases h : k = uid <;> simp [h]
  | cons v vs ih =>
    simp only [List.foldl_cons]
    rw [ih]
    by_cases h : k = uid <;> simp [updateHistoryMap, h]

/-- A model exists for a sensor exactly from the 21st detect call on. -/
theorem mlModelAfter_eq (k : Nat) : mlModelAfter k = decide (21 ≤ k) := by
  induction k with
  | zero => rfl
  | succ n ih =>
    rw [mlModelAfter, ih]
    by_cases h : 21 ≤ n
    · have h2 : 21 ≤ n + 1 := by omega
      simp [h, h2]
    · have hd : decide (21 ≤ n) = false := by simp [h]
      rw [hd]
      simp only [Bool.false_or]
      unfold mlRetrainCond mlHistLen history_window
      have hmin : min (n + 1 - 1) 100 = n := by omega
      rw [hmin]
      simp only [Bool.not_false, Bool.true_or, Bool.and_true]
      simp only [decide_eq_decide]
      omega

/-- No contribution rule of the failure predictor fires on a healthy sensor. -/
theorem healthy_factors : calculate_failure_probability healthySensor = (0, []) := by
  unfold calculate_failure_probability healthySensor
  rw [if_neg (by decide), if_neg (by decide), if_neg (by decide)]
  norm_num

/-- The risk-level ladder, characterised by interval membership. -/
theorem riskLevel_spec (r : ℚ) :
    (riskLevel r = "critical" ↔ 0.8 ≤ r) ∧
    (riskLevel r = "high" ↔ 0.6 ≤ r ∧ r < 0.8) ∧
    (riskLevel r = "medium" ↔ 0.4 ≤ r ∧ r < 0.6) ∧
    (riskLevel r = "low" ↔ 0.2 ≤ r ∧ r < 0.4) ∧
    (riskLevel r = "minimal" ↔ r < 0.2) := by
  unfold riskLevel
  split_ifs with h1 h2 h3 h4 <;>
    refine ⟨?_, ?_, ?_, ?_, ?_⟩ <;>
    first
      | exact iff_of_true rfl (by constructor <;> linarith)
      | exact iff_of_true rfl (by linarith)
      | exact iff_of_false (by decide) (by rintro ⟨hA, hB⟩; linarith)
      | exact iff_of_false (by decide) (by intro hA; linarith)

/-! ## Claims -/

/-- Claim C1, counterexample: `trigger_emergency_stop` on a site with an
already-active stop is NOT rejected and the existing stop is NOT left
authoritative — the call silently replaces it with a fresh active record, so
the state changes. -/
theorem C1_trigger_on_stopped_site_not_rejected :
    safetyS0.active_stops "site1" = some stopA ∧
    (trigger_emergency_stop safetyS0 "site1" "second stop" false none 1 5).1.status
      = "active" ∧
    (trigger_emergency_stop safetyS0 "site1" "second stop" false none 1 5).2.active_stops
      "site1" ≠ some stopA := by decide

/-- Claim C1, amended: calling `trigger_emergency_stop` while a stop is
already active for that site is not rejected; it silently overwrites the
existing record, and the new stop becomes the single authoritative active
record for the site (stops are keyed by site id, so at most one active record
per site still holds); other sites are untouched. -/
theorem C1_trigger_overwrites_existing_stop
    (s : SafetyState) (site reason : String) (auto : Bool) (user : Option String)
    (stopId now : Nat) (old : StopInfo)
    (h : s.active_stops site = some old) :
    (trigger_emergency_stop s site reason auto user stopId now).2.active_stops site
        = some (trigger_emergency_stop s site reason auto user stopId now).1 ∧
    (trigger_emergency_stop s site reason auto user stopId now).1.status = "active" ∧
    ∀ t, t ≠ site →
      (trigger_emergency_stop s site reason auto user stopId now).2.active_stops t
        = s.active_stops t := by
  refine ⟨?_, rfl, ?_⟩
  · simp [trigger_emergency_stop]
  · intro t ht
    simp [trigger_emergency_stop, ht]

/-- Claim C1, witness: the amended statement at the concrete one-stop state. -/
theorem C1_trigger_overwrites_existing_stop_witness :
    safetyS0.active_stops "site1" = some stopA ∧
    ((trigger_emergency_stop safetyS0 "site1" "second stop" false none 1 5).2.active_stops
        "site1"
        = some (trigger_emergency_stop safetyS0 "site1" "second stop" false none 1 5).1 ∧
     (trigger_emergency_stop safetyS0 "site1" "second stop" false none 1 5).1.status
        = "active" ∧
     ∀ t, t ≠ "site1" →
       (trigger_emergency_stop safetyS0 "site1" "second stop" false none 1 5).2.active_stops t
         = safetyS0.active_stops t) :=
  ⟨by decide,
   C1_trigger_overwrites_existing_stop safetyS0 "site1" "second stop" false none 1 5 stopA
     (by decide)⟩

/-- Claim C2: `release_emergency_stop` on a site with an active stop, when the
presented code is absent from the code table or bound to a different action or
site, returns a specific error outcome and leaves the whole safety state —
the active stop and the code table — unchanged. -/
theorem C2_release_rejects_invalid_code_state_unchanged
    (s : SafetyState) (site code uid : String) (now : Nat) (stop : StopInfo)
    (hstop : s.active_stops site = some stop)
    (hcode : s.confirmation_codes code = none ∨
      ∃ ci, s.confirmation_codes code = some ci ∧
        (ci.action ≠ "release_stop" ∨ ci.site_id ≠ site)) :
    ((release_emergency_stop s site code uid now).1 = .error "Invalid confirmation code" ∨
     (release_emergency_stop s site code uid now).1
        = .error "Confirmation code not valid for this action") ∧
    (release_emergency_stop s site code uid now).2 = s := by
  rcases hcode with h | ⟨ci, hci, hbad⟩
  · refine ⟨Or.inl ?_, ?_⟩ <;> simp [release_emergency_stop, hstop, h]
  · constructor
    · refine Or.inr ?_
      simp only [release_emergency_stop, hstop, hci]
      rw [if_pos hbad]
    · simp only [release_emergency_stop, hstop, hci]
      rw [if_pos hbad]

/-- Claim C2, witness: rejection at the concrete one-stop state with an
unknown code, leaving the state unchanged. -/
theorem C2_release_rejects_invalid_code_state_unchanged_witness :
    (safetyS0.active_stops "site1" = some stopA ∧
     safetyS0.confirmation_codes "XYZ999" = none) ∧
    (((release_emergency_stop safetyS0 "site1" "XYZ999" "u2" 7).1
        = .error "Invalid confirmation code" ∨
      (release_emergency_stop safetyS0 "site1" "XYZ999" "u2" 7).1
        = .error "Confirmation code not valid for this action") ∧
     (release_emergency_stop safetyS0 "site1" "XYZ999" "u2" 7).2 = safetyS0) :=
  ⟨⟨by decide, by decide⟩,
   C2_release_rejects_invalid_code_state_unchanged safetyS0 "site1" "XYZ999" "u2" 7 stopA
     (by decide) (Or.inl (by decide))⟩

/-- Claim C3: confirmation codes are single-use — after a
`release_emergency_stop` call succeeds with a code, any second call presenting
the same code string is rejected (the code has been removed from the table). -/
theorem C3_confirmation_code_single_use
    (s : SafetyState) (site code uid : String) (now : Nat)
    (h : (release_emergency_stop s site code uid now).1.isError = false) :
    ∀ site2 uid2 now2,
      (release_emergency_stop (release_emergency_stop s site code uid now).2
          site2 code uid2 now2).1.isError = true := by
  intro site2 uid2 now2
  exact release_err_of_code_none _ site2 code uid2 now2
    (release_success_code_removed s site code uid now h)

/-- Claim C3, witness: a successful release with the issued code, then the
same code rejected on the second attempt. -/
theorem C3_confirmation_code_single_use_witness :
    (release_emergency_stop safetyS1 "site1" "ABC123" "u2" 7).1.isError = false ∧
    (release_emergency_stop (release_emergency_stop safetyS1 "site1" "ABC123" "u2" 7).2
        "site1" "ABC123" "u3" 8).1.isError = true :=
  ⟨by decide, C3_confirmation_code_single_use safetyS1 "site1" "ABC123" "u2" 7
    (by decide) "site1" "u3" 8⟩

/-- Claim C4: broadcasting to a room of three connections of which exactly one
fails on send delivers to the two live connections and returns 2 (the
delivered count, not the attempted 3); afterwards the failed connection is
deregistered and removed from the room while the live ones stay registered. -/
theorem C4_broadcast_isolation
    (a b c d room : String)
    (hab : a ≠ b) (hac : a ≠ c) (hbc : b ≠ c)
    (hd : d = a ∨ d = b ∨ d = c) :
    (broadcast_to_room (triRoomState a b c room) (fun x => !(x == d)) room []).1 = 2 ∧
    (broadcast_to_room (triRoomState a b c room) (fun x => !(x == d)) room []).2.rooms room
      = some ([a, b, c].erase d) ∧
    (broadcast_to_room (triRoomState a b c room) (fun x => !(x == d)) room []).2.connections d
      = false ∧
    ∀ x, (x = a ∨ x = b ∨ x = c) → x ≠ d →
      (broadcast_to_room (triRoomState a b c room) (fun x => !(x == d)) room []).2.connections x
        = true := by
  rcases hd with rfl | rfl | rfl
  · refine ⟨?_, ?_, ?_, ?_⟩ <;>
      simp [broadcast_to_room, triRoomState, send_personal, ws_disconnect,
        hab, hac, hbc, Ne.symm hab, Ne.symm hac, Ne.symm hbc, List.erase_cons]
  · refine ⟨?_, ?_, ?_, ?_⟩ <;>
      simp [broadcast_to_room, triRoomState, send_personal, ws_disconnect,
        hab, hac, hbc, Ne.symm hab, Ne.symm hac, Ne.symm hbc, List.erase_cons]
  · refine ⟨?_, ?_, ?_, ?_⟩ <;>
      simp [broadcast_to_room, triRoomState, send_personal, ws_disconnect,
        hab, hac, hbc, Ne.symm hab, Ne.symm hac, Ne.symm hbc, List.erase_cons]

/-- Claim C4, witness: three concrete connections with the middle one dead. -/
theorem C4_broadcast_isolation_witness :
    (("c1" : String) ≠ "c2" ∧ ("c1" : String) ≠ "c3" ∧ ("c2" : String) ≠ "c3" ∧
      (("c2" : String) = "c1" ∨ ("c2" : String) = "c2" ∨ ("c2" : String) = "c3")) ∧
    ((broadcast_to_room (triRoomState "c1" "c2" "c3" "room")
        (fun x => !(x == "c2")) "room" []).1 = 2 ∧
     (broadcast_to_room (triRoomState "c1" "c2" "c3" "room")
        (fun x => !(x == "c2")) "room" []).2.rooms "room"
       = some (["c1", "c2", "c3"].erase "c2") ∧
     (broadcast_to_room (triRoomState "c1" "c2" "c3" "room")
        (fun x => !(x == "c2")) "room" []).2.connections "c2" = false ∧
     ∀ x, (x = "c1" ∨ x = "c2" ∨ x = "c3") → x ≠ "c2" →
       (broadcast_to_room (triRoomState "c1" "c2" "c3" "room")
          (fun x => !(x == "c2")) "room" []).2.connections x = true) :=
  ⟨⟨by decide, by decide, by decide, Or.inr (Or.inl rfl)⟩,
   C4_broadcast_isolation "c1" "c2" "c3" "c2" "room" (by decide) (by decide) (by decide)
     (Or.inr (Or.inl rfl))⟩

/-- Claim C5: for every sensor and reading sequence, the history after
ingesting the whole sequence has length `min k 100` (k the number of ingests),
never exceeds 100 entries, and is exactly the suffix of the readings with the
oldest entries evicted (FIFO). -/
theorem C5_history_bounded_fifo {V : Type} (sensor_uid : String) (vs : List V) :
    (ingestAll sensor_uid vs sensor_uid).length = min vs.length history_window ∧
    ingestAll sensor_uid vs sensor_uid = vs.drop (vs.length - history_window) := by
  have h : ingestAll sensor_uid vs sensor_uid = vs.foldl updHist [] := by
    unfold ingestAll
    rw [ingest_map_apply, if_pos rfl]
  rw [h, foldl_updHist_eq_drop]
  refine ⟨?_, rfl⟩
  rw [List.length_drop]
  simp only [history_window]
  omega

/-- Claim C6, counterexample: once a sensor has 100 history entries the trimmed
length stays at 100, which is divisible by 20, so the model retrains on EVERY
detect call: calls 101 and 102 are consecutive retrains with only one new
reading between them, not at least 20. -/
theorem C6_retrain_every_call_after_cap :
    mlRetrainAt 101 = true ∧ mlRetrainAt 102 = true ∧ 102 - 101 < 20 := by
  have h1 : mlModelAfter 100 = true := by rw [mlModelAfter_eq]; decide
  have h2 : mlModelAfter 101 = true := by rw [mlModelAfter_eq]; decide
  refine ⟨?_, ?_, by omega⟩
  · unfold mlRetrainAt
    rw [show (101 : Nat) - 1 = 100 from rfl, h1]
    decide
  · unfold mlRetrainAt
    rw [show (102 : Nat) - 1 = 101 from rfl, h2]
    decide

/-- Claim C6, amended: the outlier model for a sensor retrains exactly on
detect calls 21 (first time needed), 41, 61, 81 — every 20 new readings while
the history is still growing — and then on every call from the 101st on,
because the history length is capped at 100 and the retrain test
`len(history) % 20 == 0` then holds permanently. -/
theorem C6_retrain_schedule (k : Nat) (hk : 1 ≤ k) :
    mlRetrainAt k = true ↔ (k = 21 ∨ k = 41 ∨ k = 61 ∨ k = 81 ∨ 101 ≤ k) := by
  unfold mlRetrainAt mlRetrainCond mlHistLen history_window
  rw [mlModelAfter_eq]
  simp only [Bool.and_eq_true, Bool.or_eq_true, Bool.not_eq_true',
    decide_eq_true_eq, decide_eq_false_iff_not, beq_iff_eq]
  omega

/-- Claim C6, witness: the schedule applied at call 41. -/
theorem C6_retrain_schedule_witness :
    1 ≤ 41 ∧ (mlRetrainAt 41 = true ↔
      (41 = 21 ∨ 41 = 41 ∨ 41 = 61 ∨ 41 = 81 ∨ 101 ≤ 41)) :=
  ⟨by decide, C6_retrain_schedule 41 (by decide)⟩

/-- Claim C7, counterexample: a per-sensor prediction with zero contributing
factors returns confidence 0.7, not the claimed min(0.95, 0.5 + 0.2·0/5) = 0.5. -/
theorem C7_zero_factors_confidence_not_half :
    (calculate_failure_probability healthySensor).2.length = 0 ∧
    (predict_sensor_failure healthySensor 24).2.1 = 0.7 ∧
    (0.7 : ℚ) ≠ min 0.95 (0.5 + 0.2 * 0 / 5) := by
  refine ⟨by rw [healthy_factors]; rfl, ?_, by norm_num⟩
  unfold predict_sensor_failure
  rw [healthy_factors]
  have h1 : (0.7 : ℚ) + 0.2 * (([] : List PFactor).length : ℚ) / 5 = 0.7 := by norm_num
  simp only [h1]
  exact round4_of_mul_eq_int _ 7000 (by norm_num)

/-- Claim C7, amended: for a per-sensor failure prediction with n contributing
factors the returned confidence is 0.7 + 0.2·n/5 (with no explicit 0.95 cap in
the code); a prediction with zero factors has confidence 0.7, at most 5
factors can fire, and the confidence never exceeds 0.9 (hence never 0.95). -/
theorem C7_confidence_formula (f : SensorFeatures) (horizon_hours : ℚ) :
    (predict_sensor_failure f horizon_hours).2.1
      = 0.7 + 0.2 * ((calculate_failure_probability f).2.length : ℚ) / 5 ∧
    (calculate_failure_probability f).2.length ≤ 5 ∧
    (predict_sensor_failure f horizon_hours).2.1 ≤ 0.9 := by
  have hlen : (calculate_failure_probability f).2.length ≤ 5 := by
    unfold calculate_failure_probability
    simp only [List.length_append]
    split_ifs <;> simp
  have hid : round4 (0.7 + 0.2 * ((calculate_failure_probability f).2.length : ℚ) / 5)
      = 0.7 + 0.2 * ((calculate_failure_probability f).2.length : ℚ) / 5 := by
    apply round4_of_mul_eq_int _ (7000 + 400 * ((calculate_failure_probability f).2.length : ℤ))
    push_cast
    ring
  have hconf : (predict_sensor_failure f horizon_hours).2.1
      = round4 (0.7 + 0.2 * ((calculate_failure_probability f).2.length : ℚ) / 5) := rfl
  rw [hconf, hid]
  refine ⟨rfl, hlen, ?_⟩
  have h5 : ((calculate_failure_probability f).2.length : ℚ) ≤ 5 := by exact_mod_cast hlen
  nlinarith [h5]

/-- Claim C8, counterexample: the returned overall risk is rounded to four
decimal places, so for the in-range score 3/50000 the weighted sum 3/250000
is returned as 0, refuting the claimed exact equality with the clamped
weighted sum. -/
theorem C8_overall_risk_rounding_counterexample :
    (0 ≤ (3/50000 : ℚ) ∧ (3/50000 : ℚ) ≤ 1) ∧
    riskWeightedSum (3/50000) 0 0 0 0 0 = 3/250000 ∧
    overallRisk (3/50000) 0 0 0 0 0 = 0 ∧
    min 1 (max 0 (riskWeightedSum (3/50000) 0 0 0 0 0))
      ≠ overallRisk (3/50000) 0 0 0 0 0 := by
  have hsum : riskWeightedSum (3/50000 : ℚ) 0 0 0 0 0 = 3/250000 := by
    unfold riskWeightedSum w_sensor_health w_active_alerts w_historical_incidents
      w_anomaly_trend w_environmental w_time_pattern
    norm_num
  have hclamp : min 1 (max 0 (riskWeightedSum (3/50000 : ℚ) 0 0 0 0 0)) = 3/250000 := by
    rw [hsum]
    norm_num
  have hrhe : rhe ((3/250000 : ℚ) * 10000) = 0 := by
    unfold rhe
    have hx : ((3/250000 : ℚ) * 10000) = 3/25 := by norm_num
    rw [hx]
    rw [if_neg]
    · rw [round_eq]
      norm_num
    · rw [Int.fract_eq_self.mpr (by constructor <;> norm_num)]
      norm_num
  have hov : overallRisk (3/50000 : ℚ) 0 0 0 0 0 = 0 := by
    unfold overallRisk round4
    rw [hclamp, hrhe]
    norm_num
  exact ⟨⟨by norm_num, by norm_num⟩, hsum, hov, by rw [hclamp, hov]; norm_num⟩

/-- Claim C8, amended: the six risk-factor weights sum to exactly 1; for
factor scores in the unit interval the returned overall risk equals the
weighted sum (whose clamp to the unit interval is the identity here) rounded
to four decimal places, stays in the unit interval, and the risk level is
critical iff it is at least 0.8, high iff in 0.6 to 0.8, medium iff in 0.4 to
0.6, low iff in 0.2 to 0.4, else minimal. -/
theorem C8_weights_and_overall_risk (sh al hi an env tp : ℚ)
    (hsh : 0 ≤ sh ∧ sh ≤ 1) (hal : 0 ≤ al ∧ al ≤ 1) (hhi : 0 ≤ hi ∧ hi ≤ 1)
    (han : 0 ≤ an ∧ an ≤ 1) (henv : 0 ≤ env ∧ env ≤ 1) (htp : 0 ≤ tp ∧ tp ≤ 1) :
    w_sensor_health + w_active_alerts + w_historical_incidents + w_anomaly_trend +
        w_environmental + w_time_pattern = 1 ∧
    overallRisk sh al hi an env tp = round4 (riskWeightedSum sh al hi an env tp) ∧
    (0 ≤ overallRisk sh al hi an env tp ∧ overallRisk sh al hi an env tp ≤ 1) ∧
    (riskLevel (overallRisk sh al hi an env tp) = "critical" ↔
      0.8 ≤ overallRisk sh al hi an env tp) ∧
    (riskLevel (overallRisk sh al hi an env tp) = "high" ↔
      0.6 ≤ overallRisk sh al hi an env tp ∧ overallRisk sh al hi an env tp < 0.8) ∧
    (riskLevel (overallRisk sh al hi an env tp) = "medium" ↔
      0.4 ≤ overallRisk sh al hi an env tp ∧ overallRisk sh al hi an env tp < 0.6) ∧
    (riskLevel (overallRisk sh al hi an env tp) = "low" ↔
      0.2 ≤ overallRisk sh al hi an env tp ∧ overallRisk sh al hi an env tp < 0.4) ∧
    (riskLevel (overallRisk sh al hi an env tp) = "minimal" ↔
      overallRisk sh al hi an env tp < 0.2) := by
  have hlo : 0 ≤ riskWeightedSum sh al hi an env tp := by
    unfold riskWeightedSum w_sensor_health w_active_alerts w_historical_incidents
      w_anomaly_trend w_environmental w_time_pattern
    nlinarith [hsh.1, hal.1, hhi.1, han.1, henv.1, htp.1]
  have hup : riskWeightedSum sh al hi an env tp ≤ 1 := by
    unfold riskWeightedSum w_sensor_health w_active_alerts w_historical_incidents
      w_anomaly_trend w_environmental w_time_pattern
    nlinarith [hsh.2, hal.2, hhi.2, han.2, henv.2, htp.2]
  have heq : overallRisk sh al hi an env tp
      = round4 (riskWeightedSum sh al hi an env tp) := by
    unfold overallRisk
    rw [max_eq_right hlo, min_eq_right hup]
  have hunit := round4_unit (x := riskWeightedSum sh al hi an env tp) hlo hup
  have hr := riskLevel_spec (overallRisk sh al hi an env tp)
  have hw : w_sensor_health + w_active_alerts + w_historical_incidents +
      w_anomaly_trend + w_environmental + w_time_pattern = (1 : ℚ) := by
    unfold w_sensor_health w_active_alerts w_historical_incidents
      w_anomaly_trend w_environmental w_time_pattern
    norm_num
  exact ⟨hw, heq, ⟨by rw [heq]; exact hunit.1, by rw [heq]; exact hunit.2⟩,
    hr.1, hr.2.1, hr.2.2.1, hr.2.2.2.1, hr.2.2.2.2⟩

/-- Claim C8, witness: the amended statement at scores (1/2, 1, 0, 1/4, 0, 1). -/
theorem C8_weights_and_overall_risk_witness :
    ((0 ≤ (1/2 : ℚ) ∧ (1/2 : ℚ) ≤ 1) ∧ (0 ≤ (1 : ℚ) ∧ (1 : ℚ) ≤ 1) ∧
     (0 ≤ (0 : ℚ) ∧ (0 : ℚ) ≤ 1) ∧ (0 ≤ (1/4 : ℚ) ∧ (1/4 : ℚ) ≤ 1)) ∧
    (w_sensor_health + w_active_alerts + w_historical_incidents + w_anomaly_trend +
        w_environmental + w_time_pattern = 1 ∧
     overallRisk (1/2) 1 0 (1/4) 0 1 = round4 (riskWeightedSum (1/2) 1 0 (1/4) 0 1) ∧
     (0 ≤ overallRisk (1/2) 1 0 (1/4) 0 1 ∧ overallRisk (1/2) 1 0 (1/4) 0 1 ≤ 1) ∧
     (riskLevel (overallRisk (1/2) 1 0 (1/4) 0 1) = "critical" ↔
       0.8 ≤ overallRisk (1/2) 1 0 (1/4) 0 1) ∧
     (riskLevel (overallRisk (1/2) 1 0 (1/4) 0 1) = "high" ↔
       0.6 ≤ overallRisk (1/2) 1 0 (1/4) 0 1 ∧ overallRisk (1/2) 1 0 (1/4) 0 1 < 0.8) ∧
     (riskLevel (overallRisk (1/2) 1 0 (1/4) 0 1) = "medium" ↔
       0.4 ≤ overallRisk (1/2) 1 0 (1/4) 0 1 ∧ overallRisk (1/2) 1 0 (1/4) 0 1 < 0.6) ∧
     (riskLevel (overallRisk (1/2) 1 0 (1/4) 0 1) = "low" ↔
       0.2 ≤ overallRisk (1/2) 1 0 (1/4) 0 1 ∧ overallRisk (1/2) 1 0 (1/4) 0 1 < 0.4) ∧
     (riskLevel (overallRisk (1/2) 1 0 (1/4) 0 1) = "minimal" ↔
       overallRisk (1/2) 1 0 (1/4) 0 1 < 0.2)) :=
  ⟨⟨⟨by norm_num, by norm_num⟩, ⟨by norm_num, by norm_num⟩,
    ⟨by norm_num, by norm_num⟩, ⟨by norm_num, by norm_num⟩⟩,
   C8_weights_and_overall_risk (1/2) 1 0 (1/4) 0 1
     ⟨by norm_num, by norm_num⟩ ⟨by norm_num, by norm_num⟩ ⟨by norm_num, by norm_num⟩
     ⟨by norm_num, by norm_num⟩ ⟨by norm_num, by norm_num⟩ ⟨by norm_num, by norm_num⟩⟩

/-- Claim C9: a channel value of 100 against a thresholds dict whose max entry
is 85 always yields a threshold violation whose score is at least 0.5,
independently of any history (`checkThresholds` takes no history at all). -/
theorem C9_threshold_determinism (th : ThDict) (channel : String)
    (h : th "max" = some 85) :
    (checkThresholds [(channel, 100)] th).is_anomaly = true ∧
    1/2 ≤ (checkThresholds [(channel, 100)] th).score := by
  unfold checkThresholds
  simp only [List.foldl_cons, List.foldl_nil, h, Option.orElse]
  rcases h1 : th "min" with _ | m
  · rcases h2 : th (channel ++ "_min") with _ | m2 <;> simp only [h1, h2] <;> norm_num
  · simp only [h1]
    norm_num

/-- Claim C9, witness: the temperature default thresholds (max 85) at value 100. -/
theorem C9_threshold_determinism_witness :
    (mkTh 0 85 5) "max" = some 85 ∧
    ((checkThresholds [("temp", 100)] (mkTh 0 85 5)).is_anomaly = true ∧
     1/2 ≤ (checkThresholds [("temp", 100)] (mkTh 0 85 5)).score) :=
  ⟨rfl, C9_threshold_determinism (mkTh 0 85 5) "temp" rfl⟩

/-- Claim C10: when no detection method fires, `detect` returns exactly
is_anomaly false, score 0, confidence 0.95, no anomaly type, no recommended
action, and the literal explanation string — the fired-method confidence
formula does not apply. -/
theorem C10_no_anomaly_result (values : Values) (sensor_type : String)
    (thresholds : Option ThDict) (sensor_history : List Values)
    (ml_result : DetResult) (fired_explanation : String)
    (h1 : (checkThresholds values
        (thresholds.getD (defaultThresholds sensor_type))).is_anomaly = false)
    (h2 : (checkRateOfChange sensor_history values
        (thresholds.getD (defaultThresholds sensor_type))).is_anomaly = false)
    (h3 : ml_result.is_anomaly = false) :
    (detect values sensor_type thresholds sensor_history ml_result fired_explanation).1 =
      { is_anomaly := false, score := 0, confidence := 0.95, anomaly_type := none,
        detection_methods := [], contributing_features := [],
        explanation := "All readings within normal parameters.",
        recommended_action := none } := by
  unfold detect
  simp only [h1, h2, h3, if_false, Bool.false_eq_true, List.append_nil, List.nil_append,
    List.isEmpty_nil, Bool.not_true, List.take_nil]
  rw [round4_of_mul_eq_int _ 0 (by norm_num), round4_of_mul_eq_int _ 9500 (by norm_num)]

/-- Claim C10, witness: an in-range temperature reading with empty history and
a non-firing outlier oracle. -/
theorem C10_no_anomaly_result_witness :
    ((checkThresholds [("temp", 20)]
        ((none : Option ThDict).getD (defaultThresholds "temperature"))).is_anomaly
        = false ∧
     (checkRateOfChange [] [("temp", 20)]
        ((none : Option ThDict).getD (defaultThresholds "temperature"))).is_anomaly
        = false ∧
     (DetResult.mk false 0 []).is_anomaly = false) ∧
    (detect [("temp", 20)] "temperature" none [] (DetResult.mk false 0 []) "").1 =
      { is_anomaly := false, score := 0, confidence := 0.95, anomaly_type := none,
        detection_methods := [], contributing_features := [],
        explanation := "All readings within normal parameters.",
        recommended_action := none } :=
  ⟨⟨by decide, by decide, rfl⟩,
   C10_no_anomaly_result [("temp", 20)] "temperature" none [] (DetResult.mk false 0 []) ""
     (by decide) (by decide) rfl⟩
